import Mathlib

/-!
Shallow embedding of the application-command module of a chat-platform bot
framework (`src/discord/app/commands.py`): option schema construction from a
callback's parameter list, platform validation rules, the command-base
invocation pipeline (checks, hooks, error dispatch), slash-command argument
resolution, subcommand-group nesting, and context-menu commands.

Python values that matter to the embedded control flow (truthiness, the
`inspect.Parameter.empty` sentinel, `None`) are modelled by an explicit value
type; Python exceptions by an explicit exception type threaded through
`Except`; async control flow is sequentialized (each `await` is a call whose
outcome is a value of `Except`), which is faithful because the module runs one
invocation per cooperative task with no interleaving observable here.
-/

/-- Python runtime values as far as this module's control flow inspects them:
`pyNone` is `None`, `paramEmpty` is the `inspect.Parameter.empty` sentinel,
and `entity` stands for a resolved platform object (member, role, channel,
message) identified by kind and id. -/
inductive PyValue where
  | pyNone
  | pyBool (b : Bool)
  | pyInt (n : Int)
  | pyStr (s : String)
  | paramEmpty
  | entity (kind : String) (id : Int)
deriving DecidableEq

/-- Python truthiness (`bool(v)`) for the embedded values: `None`, `False`,
`0` and `""` are falsy; the `inspect.Parameter.empty` sentinel is a class
object and hence truthy, and resolved entities are truthy. -/
def PyValue.truthy : PyValue → Bool
  | .pyNone => false
  | .pyBool b => b
  | .pyInt n => n != 0
  | .pyStr s => s != ""
  | .paramEmpty => true
  | .entity _ _ => true

/-- The exceptions this module raises or handles. `invokeError` is
`ApplicationCommandInvokeError` carrying its original cause, `checkFailure`
is `CheckFailure`, `clientError` is `ClientException`, `attrError` stands for
the `AttributeError` a `None` attribute access raises, and `generic` is a
bare `Exception`. -/
inductive PyExc where
  | appCommandError
  | checkFailure (msg : String)
  | invokeError (cause : PyExc)
  | cancelledError
  | notFound
  | validationError (msg : String)
  | typeError (msg : String)
  | clientError (msg : String)
  | valueError (msg : String)
  | attrError
  | generic (msg : String)
deriving DecidableEq

/-- Modelled from the spec: the exception-class hierarchy lives in the
`errors` modules, which are not part of this file. Per the error-handling
design, check-failure and invocation errors are command-error subtypes
(`ApplicationCommandError`), while cancellation, not-found and the
programmer-facing configuration errors are not. -/
def PyExc.isAppCommandError : PyExc → Bool
  | .appCommandError => true
  | .checkFailure _ => true
  | .invokeError _ => true
  | _ => false

/-- The native Python types a parameter annotation can name here. -/
inductive PyType where
  | pyStr
  | pyInt
  | pyBool
  | pyFloat
deriving DecidableEq

/-- Modelled from the spec: the option-type enumeration
`SlashCommandOptionType` lives in the `enums` module, which is not part of
this file. Constructors follow the wire schema's numeric order, with the
closed numeric range from `user` to `role` covering user, channel and role,
and `mentionable` outside it. -/
inductive SlashCommandOptionTypeE where
  | sub_command
  | sub_command_group
  | string
  | integer
  | boolean
  | user
  | channel
  | role
  | mentionable
  | number
deriving DecidableEq

/-- Modelled from the spec: the numeric wire value of each option type
(the `.value` of the Python enum members, numbered consecutively from 1). -/
def SlashCommandOptionTypeE.value : SlashCommandOptionTypeE → Nat
  | .sub_command => 1
  | .sub_command_group => 2
  | .string => 3
  | .integer => 4
  | .boolean => 5
  | .user => 6
  | .channel => 7
  | .role => 8
  | .mentionable => 9
  | .number => 10

/-- The Python enum member's `.name` attribute. -/
def SlashCommandOptionTypeE.pyName : SlashCommandOptionTypeE → String
  | .sub_command => "sub_command"
  | .sub_command_group => "sub_command_group"
  | .string => "string"
  | .integer => "integer"
  | .boolean => "boolean"
  | .user => "user"
  | .channel => "channel"
  | .role => "role"
  | .mentionable => "mentionable"
  | .number => "number"

/-- Modelled from the spec: `SlashCommandOptionType.from_datatype`, the fixed
mapping from native value types to option types (string to the string type,
int to the integer type, and so on), from the `enums` module. -/
def SlashCommandOptionTypeE.from_datatype : PyType → SlashCommandOptionTypeE
  | .pyStr => .string
  | .pyInt => .integer
  | .pyBool => .boolean
  | .pyFloat => .number

/-- `OptionChoice`: a name plus a wire value. -/
structure OptionChoiceE where
  name : String
  value : PyValue
deriving DecidableEq

/-- `OptionChoice.__init__`: `self.value = value or name`, so a missing or
falsy value falls back to the name. -/
def OptionChoice_init (name : String) (value : Option PyValue) : OptionChoiceE :=
  { name := name
    value :=
      match value with
      | some v => if v.truthy then v else .pyStr name
      | none => .pyStr name }

/-- The `Option` schema unit (named `CmdOption` here because `Option` is
taken by Lean): optional name, description, type tag, required flag, choices
and default. -/
structure CmdOption where
  name : Option String
  description : String
  input_type : SlashCommandOptionTypeE
  required : Bool
  choices : List OptionChoiceE
  default : PyValue
deriving DecidableEq

/-- `Option.__init__`: name comes from the keyword arguments (absent means
`None`), `description or "No description provided"` uses truthiness, a native
input type is converted through `from_datatype`, `required` defaults to true
and `default` to `None`. -/
def Option_init (input_type : Sum PyType SlashCommandOptionTypeE)
    (description : Option String) (kname : Option String) (krequired : Bool)
    (kchoices : List OptionChoiceE) (kdefault : PyValue) : CmdOption :=
  { name := kname
    description :=
      match description with
      | some s => if s != "" then s else "No description provided"
      | none => "No description provided"
    input_type :=
      match input_type with
      | .inl t => SlashCommandOptionTypeE.from_datatype t
      | .inr it => it
    required := krequired
    choices := kchoices
    default := kdefault }

/-- The substring test `" " in name` of the source, which for a single-space
needle is membership of the space character. -/
def pyHasSpace (s : String) : Bool :=
  s.toList.any (fun c => c == ' ')

/-- Python's `str.islower` over the ASCII fragment: at least one cased
character and no uppercase one. A string with no cased character at all
(for example, all digits) is not lowercase in this sense. -/
def pyIslower (s : String) : Bool :=
  s.toList.any (fun c => c.isLower) && !(s.toList.any (fun c => c.isUpper))

/-- `validate_chat_input_name`: the `isinstance(name, str)` guard is vacuous
in this typed embedding; then the source checks spaces, `islower`, and the
1..32 length bound, in that order. -/
def validate_chat_input_name (name : String) : Except PyExc Unit :=
  if pyHasSpace name then
    .error (.validationError "Name of a chat input command cannot have spaces.")
  else if !(pyIslower name) then
    .error (.validationError "Name of a chat input command must be lowercase.")
  else if name.length > 32 || name.length < 1 then
    .error (.validationError "Name of a chat input command must be less than 32 characters and non empty.")
  else
    .ok ()

/-- `validate_chat_input_description`: the string-type guard is vacuous in the
typed embedding; the length must be 1..100. -/
def validate_chat_input_description (description : String) : Except PyExc Unit :=
  if description.length > 100 || description.length < 1 then
    .error (.validationError "Description of a chat input command must be less than 100 characters and non empty.")
  else
    .ok ()

/-- A callback parameter's type annotation as the builder inspects it:
absent (`inspect.Parameter.empty`), a native type, an `Optional[T]`
(`Union[T, None]`) wrapper, or an explicit `Option` instance. -/
inductive Annot where
  | empty
  | typ (t : PyType)
  | optionalTyp (t : PyType)
  | opt (o : CmdOption)
deriving DecidableEq

/-- One entry of the callback's ordered parameter list: its name, annotation
and declared default (`paramEmpty` when the parameter declares none). -/
structure Param where
  name : String
  annot : Annot
  default : PyValue
deriving DecidableEq

/-- The per-parameter body of `SlashCommand.parse_options`: an absent
annotation becomes `str`; `Optional[T]` becomes `Option(T, "No description
provided", required=False)`; a non-`Option` annotation is wrapped into an
`Option`, marked not required when the parameter declares a default; then
`option.default = option.default or p_obj.default` (truthiness), a default
equal to `inspect.Parameter.empty` is normalized to `None`, and an unset
option name is filled from the parameter name. -/
def parse_one_option (p : Param) : CmdOption :=
  let a : Annot :=
    match p.annot with
    | .empty => .typ .pyStr
    | x => x
  let o : CmdOption :=
    match a with
    | .empty => Option_init (.inl .pyStr) (some "No description provided") none true [] .pyNone
    | .optionalTyp t => Option_init (.inl t) (some "No description provided") none false [] .pyNone
    | .typ t =>
        let o0 := Option_init (.inl t) (some "No description provided") none true [] .pyNone
        if p.default != .paramEmpty then { o0 with required := false } else o0
    | .opt o0 => o0
  let d1 := if o.default.truthy then o.default else p.default
  let d2 := if d1 = .paramEmpty then PyValue.pyNone else d1
  let o1 := { o with default := d2 }
  match o1.name with
  | none => { o1 with name := some p.name }
  | some _ => o1

/-- `SlashCommand.parse_options`: skips the implicit owner parameter when the
command is cog-bound (failing when it is absent), skips the mandatory context
parameter (failing when absent), and maps the remaining parameters in
declaration order through `parse_one_option`. -/
def parse_options (cogPresent : Bool) (cmdName : String) (params : List Param) :
    Except PyExc (List CmdOption) :=
  match cogPresent, params with
  | true, [] =>
      .error (.clientError ("Callback for " ++ cmdName ++ " command is missing \"self\" parameter."))
  | true, _ :: rest =>
      match rest with
      | [] => .error (.clientError ("Callback for " ++ cmdName ++ " command is missing \"ctx\" parameter."))
      | _ :: rest2 => .ok (rest2.map parse_one_option)
  | false, [] =>
      .error (.clientError ("Callback for " ++ cmdName ++ " command is missing \"ctx\" parameter."))
  | false, _ :: rest => .ok (rest.map parse_one_option)

/-- The exception transformation of `wrap_callback` (and of the body of
`hooked_wrapped_callback`): a command-error subtype passes through unchanged,
a cancellation is swallowed (the wrapper returns), and any other exception is
wrapped into `ApplicationCommandInvokeError` with the original as cause. -/
def wrapCallbackResult (r : Except PyExc Unit) : Except PyExc Unit :=
  match r with
  | .ok _ => .ok ()
  | .error e =>
      if e.isAppCommandError then .error e
      else if e = .cancelledError then .ok ()
      else .error (.invokeError e)

/-- The inputs `ApplicationCommand.dispatch_error` consults: whether the
command has a registered local `on_error` handler and what invoking it does;
whether the command belongs to a cog that overrides `cog_command_error` and
what invoking that hook does. A handler's behaviour is its outcome when
called with `(ctx, error)`. -/
structure DispatchEnv where
  hasOnError : Bool
  onErrorResult : Except PyExc Unit
  cogPresent : Bool
  cogOverridesHandler : Bool
  cogHandlerResult : Except PyExc Unit

/-- `ApplicationCommand.dispatch_error`: first the wrapped local handler (an
absent `on_error` attribute is skipped); its escaping exception propagates
immediately. Then a `try`/`finally` runs the wrapped cog-level handler with
the `application_command_error` dispatch in the `finally`. The result is the
exception that escapes `dispatch_error` paired with whether the
framework-wide event was dispatched. -/
def dispatch_error (env : DispatchEnv) : Except PyExc Unit × Bool :=
  let step1 : Except PyExc Unit :=
    if env.hasOnError then wrapCallbackResult env.onErrorResult else .ok ()
  match step1 with
  | .error e => (.error e, false)
  | .ok _ =>
      let step2 : Except PyExc Unit :=
        if env.cogPresent && env.cogOverridesHandler then
          wrapCallbackResult env.cogHandlerResult
        else .ok ()
      (step2, true)

/-- The collaborators one run of `ApplicationCommand.invoke` consults on a
fixed context: the bot-global check's verdict, the command's own check
predicates' verdicts, the outcome of the before-hook chain, the outcome of
the type-specific `_invoke`, and the outcome of the after-hook chain
(`call_after_hooks`). -/
structure InvokeEnv where
  globalCheckOk : Bool
  checks : List Bool
  beforeHooks : Except PyExc Unit
  invokeResult : Except PyExc Unit
  afterHooks : Except PyExc Unit

/-- `ApplicationCommand.can_run`: a failing bot-global check raises
`CheckFailure`; an empty predicate list passes vacuously; otherwise the
conjunction of all predicates (`async_all` is logical AND, modelled from the
spec since `utils` is not part of this file). -/
def can_run (env : InvokeEnv) : Except PyExc Bool :=
  if !env.globalCheckOk then
    .error (.checkFailure "The global check functions for command failed.")
  else if env.checks.isEmpty then
    .ok true
  else
    .ok (env.checks.all id)

/-- `ApplicationCommand.prepare`: binds the command onto the context (not
observable here), raises `CheckFailure` when `can_run` returns false, then
runs the before-hook chain. -/
def prepare (env : InvokeEnv) : Except PyExc Unit :=
  match can_run env with
  | .error e => .error e
  | .ok b =>
      if !b then .error (.checkFailure "The check functions for the command failed")
      else env.beforeHooks

/-- The `try`/`except`/`finally` of `hooked_wrapped_callback`: after-hooks
run exactly once in the `finally`, whatever the inner outcome; an exception
escaping the after-hooks replaces the transformed inner outcome. The `Nat`
counts executions of `call_after_hooks`. -/
def hooked_wrapped_run (inner afterHooks : Except PyExc Unit) :
    Except PyExc Unit × Nat :=
  match afterHooks with
  | .error e => (.error e, 1)
  | .ok _ => (wrapCallbackResult inner, 1)

/-- `ApplicationCommand.invoke`: `prepare`, then the hooked wrapper around
`_invoke`. A failure of `prepare` propagates with the after-hooks never
entered. -/
def invoke (env : InvokeEnv) : Except PyExc Unit × Nat :=
  match prepare env with
  | .error e => (.error e, 0)
  | .ok _ => hooked_wrapped_run env.invokeResult env.afterHooks

/-- An `InvokeEnv` whose checks pass and whose hooks succeed, carrying a
given `_invoke` outcome. -/
def mkEnvOk (r : Except PyExc Unit) : InvokeEnv :=
  { globalCheckOk := true, checks := [], beforeHooks := .ok ()
    invokeResult := r, afterHooks := .ok () }

/-- Forgets a successful result's value, keeping the exception. -/
def discardVal {α : Type} : Except PyExc α → Except PyExc Unit
  | .ok _ => .ok ()
  | .error e => .error e

/-- Python's `int(...)` on an option's raw payload value (snowflakes arrive
as numeric strings). -/
def pyToInt : PyValue → Except PyExc Int
  | .pyInt n => .ok n
  | .pyBool b => .ok (if b then 1 else 0)
  | .pyStr s =>
      match s.toInt? with
      | some n => .ok n
      | none => .error (.valueError "invalid literal for int() with base 10")
  | _ => .error (.typeError "int() argument must be a string or a number")

/-- The per-argument entity resolution of `SlashCommand._invoke`: a type tag
in the closed numeric range from `user` to `role` is resolved through the
guild's get-or-fetch lookup (member lookups are requested under the name
"member" although the type tag is named "user"); a `mentionable` tag tries a
member lookup and falls back to a role lookup only when the member lookup
raises `NotFound`; every other tag keeps the raw value. `lookup kind id`
stands for `get_or_fetch(ctx.guild, kind, id)`, a collaborator outside this
file, modelled from the spec as a guild-scoped get-or-fetch that raises
`NotFound` for an unknown id. -/
def resolve_arg (lookup : String → Int → Except PyExc PyValue)
    (op : CmdOption) (v : PyValue) : Except PyExc PyValue :=
  if SlashCommandOptionTypeE.user.value ≤ op.input_type.value ∧
      op.input_type.value ≤ SlashCommandOptionTypeE.role.value then
    match pyToInt v with
    | .error e => .error e
    | .ok idv =>
        lookup (if op.input_type.pyName == "user" then "member" else op.input_type.pyName) idv
  else if op.input_type = SlashCommandOptionTypeE.mentionable then
    match pyToInt v with
    | .error e => .error e
    | .ok idv =>
        match lookup "member" idv with
        | .error .notFound => lookup "role" idv
        | r => r
  else
    .ok v

/-- The callback keyword-argument mapping: a Python dict in insertion order,
keyed by the matched option's (possibly unset) name. -/
abbrev KWDict : Type := List (Option String × PyValue)

/-- `kwargs[k] = v` on a Python dict: update in place when the key exists,
append otherwise. -/
def dictSet (kw : KWDict) (k : Option String) (v : PyValue) : KWDict :=
  if kw.any (fun p => p.1 == k) then
    kw.map (fun p => if p.1 == k then (k, v) else p)
  else
    kw ++ [(k, v)]

/-- `k in kwargs` on a Python dict. -/
def hasKey (kw : KWDict) (k : Option String) : Bool :=
  kw.any (fun p => p.1 == k)

/-- The payload loop of `SlashCommand._invoke`: for each incoming
`(name, value)` pair, `find` the schema option with that name (the source
does not handle a miss: the subsequent attribute access on `None` raises
`AttributeError`, modelled as `attrError`), resolve the value, and store it
under the option's name. -/
def processPayload (opts : List CmdOption)
    (lookup : String → Int → Except PyExc PyValue) :
    List (String × PyValue) → KWDict → Except PyExc KWDict
  | [], kw => .ok kw
  | (argName, argVal) :: rest, kw =>
      match opts.find? (fun o => o.name == some argName) with
      | none => .error .attrError
      | some op =>
          match resolve_arg lookup op argVal with
          | .error e => .error e
          | .ok resolved => processPayload opts lookup rest (dictSet kw op.name resolved)

/-- The fill-in loop of `SlashCommand._invoke`: every schema option whose
name is not yet a key of the keyword mapping is appended with its declared
default. -/
def fillDefaults (opts : List CmdOption) (kw : KWDict) : KWDict :=
  match opts with
  | [] => kw
  | o :: rest =>
      fillDefaults rest (if hasKey kw o.name then kw else kw ++ [(o.name, o.default)])

/-- `SlashCommand._invoke` up to the callback call: the resolved keyword
mapping the callback is invoked with (`await self.callback(ctx, **kwargs)`),
or the exception that escapes the resolution. -/
def SlashCommand_invoke (opts : List CmdOption)
    (lookup : String → Int → Except PyExc PyValue)
    (payload : List (String × PyValue)) : Except PyExc KWDict :=
  match processPayload opts lookup payload [] with
  | .error e => .error e
  | .ok kw => .ok (fillDefaults opts kw)

/-- `SubCommandGroup` as a tree: name, description, the ordered subcommand
list (only child groups matter to the nesting claims; slash children are
opaque to them) and the `parent_group` back-reference. -/
inductive SubCommandGroupE : Type where
  | mk (name : String) (description : String)
      (subcommands : List SubCommandGroupE)
      (parent_group : Option SubCommandGroupE) : SubCommandGroupE

/-- The `name` field of a group. -/
def SubCommandGroupE.name : SubCommandGroupE → String
  | .mk n _ _ _ => n

/-- The `description` field of a group. -/
def SubCommandGroupE.description : SubCommandGroupE → String
  | .mk _ d _ _ => d

/-- The `subcommands` list of a group. -/
def SubCommandGroupE.subcommands : SubCommandGroupE → List SubCommandGroupE
  | .mk _ _ s _ => s

/-- The `parent_group` back-reference of a group. -/
def SubCommandGroupE.parent_group : SubCommandGroupE → Option SubCommandGroupE
  | .mk _ _ _ p => p

/-- `self.subcommands.append(child)`. -/
def SubCommandGroupE.appendSub : SubCommandGroupE → SubCommandGroupE → SubCommandGroupE
  | .mk n d s p, child => .mk n d (s ++ [child]) p

/-- `SubCommandGroup.__init__`: validates the name and the description (so
construction itself can raise), then builds the group with an empty
subcommand list and the given parent back-reference. -/
def SubCommandGroup_init (name description : String)
    (parent : Option SubCommandGroupE) : Except PyExc SubCommandGroupE :=
  match validate_chat_input_name name with
  | .error e => .error e
  | .ok _ =>
      match validate_chat_input_description description with
      | .error e => .error e
      | .ok _ => .ok (.mk name description [] parent)

/-- `SubCommandGroup.command_group`: a group whose `parent_group` is already
set raises a bare `Exception` before anything is constructed; otherwise the
child group is constructed with `parent_group=self` and appended, and the
pair (updated parent, child) results. -/
def command_group (g : SubCommandGroupE) (name description : String) :
    Except PyExc (SubCommandGroupE × SubCommandGroupE) :=
  if g.parent_group.isSome then
    .error (.generic "Subcommands can only be nested once")
  else
    match SubCommandGroup_init name description (some g) with
    | .error e => .error e
    | .ok child => .ok (g.appendSub child, child)

/-- A wire-dictionary value of a context-menu command's `to_dict`. -/
inductive WireVal where
  | str (s : String)
  | num (n : Nat)
deriving DecidableEq

/-- A constructed `ContextMenuCommand` (user or message variant): the
description is assigned the empty string in `__init__`, before any keyword
argument could influence it, and `type` is the class attribute (2 for user,
3 for message). -/
structure ContextMenuCommandE where
  name : String
  description : String
  type : Nat
deriving DecidableEq

/-- `ContextMenuCommand.__init__` followed by `validate_parameters`: a
non-coroutine callback raises `TypeError`; the description is forced to
`""` (a supplied description keyword is never read); the name falls back to
the function's name; the parameter count after skipping the owner parameter
must be exactly two (context plus one target), with missing-`ctx`,
missing-target and too-many-parameters errors otherwise. -/
def ContextMenuCommand_init (ty : Nat) (isCoroutine : Bool) (funcName : String)
    (kname : Option String) (kdescription : Option String) (paramCountAfterCog : Nat) :
    Except PyExc ContextMenuCommandE :=
  if !isCoroutine then
    .error (.typeError "Callback must be a coroutine.")
  else
    let name := kname.getD funcName
    let _ := kdescription
    if paramCountAfterCog < 1 then
      .error (.clientError ("Callback for " ++ name ++ " command is missing \"ctx\" parameter."))
    else if paramCountAfterCog < 2 then
      .error (.clientError ("Callback for " ++ name ++ " command is missing \"" ++
        (if ty = 2 then "user" else "message") ++ "\" parameter."))
    else if paramCountAfterCog > 2 then
      .error (.clientError ("Callback for " ++ name ++ " command has too many parameters."))
    else
      .ok { name := name, description := "", type := ty }

/-- `UserCommand`: `type = 2`. -/
def UserCommand_init (isCoroutine : Bool) (funcName : String)
    (kname : Option String) (kdescription : Option String) (paramCountAfterCog : Nat) :
    Except PyExc ContextMenuCommandE :=
  ContextMenuCommand_init 2 isCoroutine funcName kname kdescription paramCountAfterCog

/-- `MessageCommand`: `type = 3`. -/
def MessageCommand_init (isCoroutine : Bool) (funcName : String)
    (kname : Option String) (kdescription : Option String) (paramCountAfterCog : Nat) :
    Except PyExc ContextMenuCommandE :=
  ContextMenuCommand_init 3 isCoroutine funcName kname kdescription paramCountAfterCog

/-- `ContextMenuCommand.to_dict`: exactly name, description and type. -/
def ContextMenuCommandE.to_dict (c : ContextMenuCommandE) : List (String × WireVal) :=
  [("name", .str c.name), ("description", .str c.description), ("type", .num c.type)]

/-- A constructed `SlashCommand` as far as its equality comparison can see
it: the schema fields plus the fields `__eq__` ignores (the callback is
identified by an opaque tag, the checks by opaque tags). -/
structure SlashCommandE where
  name : String
  description : String
  options : List CmdOption
  guild_ids : Option (List Int)
  is_subcommand : Bool
  checks : List String
  callbackTag : String
deriving DecidableEq

/-- `SlashCommand.__eq__`: the other object must be a `SlashCommand` (both
sides are, in this typed embedding) with the same name and the same
description; every other field is ignored. -/
def SlashCommand_eq (a b : SlashCommandE) : Bool :=
  a.name == b.name && a.description == b.description

/-- Entries already in the keyword mapping survive the default fill-in loop:
the loop only ever appends. -/
theorem mem_fillDefaults (opts : List CmdOption) (kw : KWDict)
    (e : Option String × PyValue) (he : e ∈ kw) : e ∈ fillDefaults opts kw := by
  induction opts generalizing kw with
  | nil => simpa [fillDefaults] using he
  | cons o rest ih =>
      simp only [fillDefaults]
      by_cases hk : hasKey kw o.name = true
      · rw [if_pos hk]; exact ih kw he
      · rw [if_neg hk]; exact ih _ (List.mem_append_left _ he)

theorem hasKey_append_single (kw : KWDict) (e : Option String × PyValue)
    (k : Option String) : hasKey (kw ++ [e]) k = (hasKey kw k || (e.1 == k)) := by
  simp [hasKey, List.any_append]

/-- The fill-in loop appends each schema option's declared default whenever
its name is not already a key (with pairwise distinct schema names). -/
theorem fillDefaults_fills : ∀ (opts : List CmdOption) (kw : KWDict) (o : CmdOption),
    (opts.map CmdOption.name).Nodup → o ∈ opts → hasKey kw o.name = false →
    (o.name, o.default) ∈ fillDefaults opts kw := by
  intro opts
  induction opts with
  | nil => intro kw o _ ho _; cases ho
  | cons hd rest ih =>
      intro kw o hnodup ho hk
      rw [List.map_cons] at hnodup
      have hcons := List.nodup_cons.mp hnodup
      rcases List.mem_cons.mp ho with rfl | ho'
      · simp only [fillDefaults]
        rw [if_neg (by simp [hk])]
        exact mem_fillDefaults rest _ _ (List.mem_append_right _ (by simp))
      · have hne : hd.name ≠ o.name := fun hcontra =>
          hcons.1 (hcontra ▸ List.mem_map_of_mem CmdOption.name ho')
        simp only [fillDefaults]
        by_cases hhd : hasKey kw hd.name = true
        · rw [if_pos hhd]
          exact ih kw o hcons.2 ho' hk
        · rw [if_neg hhd]
          apply ih _ o hcons.2 ho'
          rw [hasKey_append_single, hk]
          simp [hne]

/-- A successful context-menu construction yields exactly the empty
description, the resolved name and the class type tag. -/
theorem ContextMenuCommand_init_ok (ty : Nat) (isCoro : Bool) (fn : String)
    (kn kd : Option String) (pc : Nat) (c : ContextMenuCommandE)
    (h : ContextMenuCommand_init ty isCoro fn kn kd pc = .ok c) :
    c = { name := kn.getD fn, description := "", type := ty } := by
  unfold ContextMenuCommand_init at h
  split_ifs at h
  simp_all

/-- Claim C1 (amended): `dispatch_error` dispatches the framework-wide
`application_command_error` event with `(ctx, error)` as the final step
whenever the local `on_error` step does not itself escape with an exception
— in particular the dispatch still happens when the group-level (cog) error
hook raises, since only that hook is guarded by the `try`/`finally` around
the dispatch. An exception escaping the wrapped local handler propagates
before the second `try`/`finally` is entered, and the event is then not
dispatched (contrary to the claim as stated). -/
theorem C1_dispatch_event_amended (env : DispatchEnv)
    (h : env.hasOnError = false ∨ wrapCallbackResult env.onErrorResult = .ok ()) :
    (dispatch_error env).2 = true := by
  rcases h with h | h
  · simp [dispatch_error, h]
  · cases hh : env.hasOnError <;> simp [dispatch_error, hh, h]

/-- Counterexample to claim C1 as stated: a registered command-local
`on_error` handler that raises a plain exception makes `dispatch_error`
propagate the wrapped exception without dispatching the framework-wide
`application_command_error` event. -/
theorem C1_counterexample_local_handler_raises :
    (dispatch_error ⟨true, .error (.generic "boom"), false, false, .ok ()⟩).2 = false ∧
    (dispatch_error ⟨true, .error (.generic "boom"), false, false, .ok ()⟩).1 =
      .error (.invokeError (.generic "boom")) := ⟨rfl, rfl⟩

theorem C1_witness_cog_handler_raises :
    (dispatch_error ⟨false, .ok (), true, true, .error (.generic "cog boom")⟩).2 = true :=
  C1_dispatch_event_amended ⟨false, .ok (), true, true, .error (.generic "cog boom")⟩ (Or.inl rfl)
/-- Claim C2 (amended): `validate_chat_input_name` returns normally exactly
for names with no space, no uppercase letter, at least one lowercase letter
(Python's `str.islower` also rejects names with no cased character, such as
all-digit names), and length 1 to 32; it fails for every other name. -/
theorem C2_validate_name_amended (name : String) :
    validate_chat_input_name name = .ok () ↔
      (¬ (' ' ∈ name.toList) ∧ (∀ c ∈ name.toList, c.isUpper = false) ∧
       (∃ c ∈ name.toList, c.isLower = true) ∧ 1 ≤ name.length ∧ name.length ≤ 32) := by
  unfold validate_chat_input_name pyHasSpace pyIslower
  split_ifs with h1 h2 h3
  · refine iff_of_false (by simp) ?_
    rintro ⟨hsp, -, -, -, -⟩
    simp only [List.any_eq_true, beq_iff_eq] at h1
    obtain ⟨x, hx, rfl⟩ := h1
    exact hsp hx
  · refine iff_of_false (by simp) ?_
    rintro ⟨-, hup, ⟨c, hc, hlow⟩, -, -⟩
    rw [Bool.not_eq_true', Bool.and_eq_false_iff] at h2
    rcases h2 with hA | hB
    · exact absurd hlow (by simpa using List.any_eq_false.mp hA c hc)
    · rw [Bool.not_eq_false'] at hB
      obtain ⟨x, hx, hupx⟩ := List.any_eq_true.mp hB
      exact absurd hupx (by simp [hup x hx])
  · refine iff_of_false (by simp) ?_
    rintro ⟨-, -, -, hlen1, hlen2⟩
    simp only [Bool.or_eq_true, decide_eq_true_eq] at h3
    omega
  · refine iff_of_true rfl ?_
    rw [Bool.not_eq_true] at h1
    rw [Bool.not_eq_true, Bool.not_eq_false'] at h2
    rw [Bool.and_eq_true] at h2
    obtain ⟨hA, hB⟩ := h2
    rw [Bool.not_eq_true'] at hB
    rw [Bool.not_eq_true, Bool.or_eq_false_iff] at h3
    simp only [decide_eq_false_iff_not, not_lt] at h3
    refine ⟨?_, ?_, ?_, by omega, by omega⟩
    · intro hmem
      have := List.any_eq_false.mp h1 ' ' hmem
      simp at this
    · intro c hc
      have := List.any_eq_false.mp hB c hc
      simpa using this
    · exact List.any_eq_true.mp hA

/-- Counterexample to claim C2 as stated: the name "123" contains no
uppercase letter, no space, and has length 3, so the claim says
`validate_chat_input_name` returns normally on it; the code rejects it,
because Python's `str.islower` is false for a string with no cased
character. -/
theorem C2_counterexample_digits_only_name :
    (¬ (' ' ∈ "123".toList)) ∧ (∀ c ∈ "123".toList, c.isUpper = false) ∧
    1 ≤ "123".length ∧ "123".length ≤ 32 ∧
    validate_chat_input_name "123" =
      .error (.validationError "Name of a chat input command must be lowercase.") :=
  ⟨by decide, by decide, by decide, by decide, rfl⟩

theorem C2_witness_compliant_name : validate_chat_input_name "ping" = .ok () :=
  (C2_validate_name_amended "ping").mpr (by decide)

/-- Claim C3: for the callback `f(ctx, a: int, b: str = "x", c:
Optional[int] = None)` the Option Builder produces, in declaration order and
excluding the context parameter, exactly an integer option "a" (required, no
default), a string option "b" (not required, default "x"), and an integer
option "c" (not required, default None). -/
theorem C3_option_builder_roundtrip :
    parse_options false "f"
        [⟨"ctx", .empty, .paramEmpty⟩,
         ⟨"a", .typ .pyInt, .paramEmpty⟩,
         ⟨"b", .typ .pyStr, .pyStr "x"⟩,
         ⟨"c", .optionalTyp .pyInt, .pyNone⟩] =
      .ok [⟨some "a", "No description provided", .integer, true, [], .pyNone⟩,
           ⟨some "b", "No description provided", .string, false, [], .pyStr "x"⟩,
           ⟨some "c", "No description provided", .integer, false, [], .pyNone⟩] := rfl

/-- Claim C4 (amended): for a parameter whose annotation is an explicit
Option instance, the Option's own default survives only when it is truthy;
a falsy default (None, and also 0, False or "") is replaced by the
parameter's declared default, normalized to None when the parameter declares
none. The Option's name is filled from the parameter name exactly when the
Option's name is unset (None). -/
theorem C4_explicit_option_defaults_amended (p : Param) (o : CmdOption)
    (h : p.annot = .opt o) :
    (o.default.truthy = true → o.default ≠ .paramEmpty →
        (parse_one_option p).default = o.default) ∧
    (o.default.truthy = false →
        (parse_one_option p).default =
          (if p.default = .paramEmpty then PyValue.pyNone else p.default)) ∧
    (o.name = none → (parse_one_option p).name = some p.name) ∧
    (∀ n, o.name = some n → (parse_one_option p).name = some n) := by
  obtain ⟨pn, pa, pd⟩ := p
  obtain ⟨onm, od, oit, orq, och, odf⟩ := o
  simp only [Param.annot] at h
  subst h
  refine ⟨?_, ?_, ?_, ?_⟩
  · intro ht hne
    cases onm <;> simp [parse_one_option, ht, hne]
  · intro ht
    cases onm <;> cases hpd : decide (pd = PyValue.paramEmpty) <;>
      simp_all [parse_one_option]
  · intro hn
    subst hn
    by_cases ht : PyValue.truthy odf = true <;> simp [parse_one_option, ht]
  · intro n hn
    subst hn
    by_cases ht : PyValue.truthy odf = true <;> simp [parse_one_option, ht]

/-- Counterexample to claim C4 as stated: an explicit Option whose default is
set to the falsy value 0 does not keep it; the parameter's declared default 5
overwrites it, because the source merges with `option.default or
p_obj.default`. -/
theorem C4_counterexample_falsy_option_default :
    (parse_one_option ⟨"x",
        .opt ⟨none, "No description provided", .integer, true, [], .pyInt 0⟩,
        .pyInt 5⟩).default = .pyInt 5 ∧
    PyValue.pyInt 5 ≠ PyValue.pyInt 0 := ⟨rfl, by decide⟩

theorem C4_witness_truthy_default_kept :
    (parse_one_option ⟨"x",
        .opt ⟨some "y", "d", .integer, true, [], .pyInt 7⟩,
        .paramEmpty⟩).default = .pyInt 7 :=
  (C4_explicit_option_defaults_amended
      ⟨"x", .opt ⟨some "y", "d", .integer, true, [], .pyInt 7⟩, .paramEmpty⟩
      ⟨some "y", "d", .integer, true, [], .pyInt 7⟩ rfl).1 rfl (by decide)

/-- Claim C5: for a mentionable-typed option, a member lookup that raises
`NotFound` is followed by a role lookup for the same id whose result is
passed to the callback; and when the role lookup also raises `NotFound`,
that exception escapes `_invoke` and `invoke` surfaces it as an
`ApplicationCommandInvokeError` wrapping the original `NotFound`. -/
theorem C5_mentionable_fallback (lookup : String → Int → Except PyExc PyValue)
    (opname : String) (op : CmdOption) (v : PyValue) (idn : Int) (r : PyValue)
    (hty : op.input_type = .mentionable) (hname : op.name = some opname)
    (hv : pyToInt v = .ok idn)
    (hmem : lookup "member" idn = .error .notFound) :
    (lookup "role" idn = .ok r →
        SlashCommand_invoke [op] lookup [(opname, v)] = .ok [(some opname, r)]) ∧
    (lookup "role" idn = .error .notFound →
        SlashCommand_invoke [op] lookup [(opname, v)] = .error .notFound ∧
        invoke (mkEnvOk (discardVal (SlashCommand_invoke [op] lookup [(opname, v)]))) =
          (.error (.invokeError .notFound), 1)) := by
  have hrng : ¬(SlashCommandOptionTypeE.user.value ≤ op.input_type.value ∧
      op.input_type.value ≤ SlashCommandOptionTypeE.role.value) := by
    rw [hty]; decide
  have hres : resolve_arg lookup op v =
      (match lookup "member" idn with
       | .error .notFound => lookup "role" idn
       | r => r) := by
    unfold resolve_arg
    rw [if_neg hrng, if_pos hty, hv]
  have hfind : List.find? (fun o => o.name == some opname) [op] = some op := by
    simp [List.find?, hname]
  constructor
  · intro hrole
    have hr2 : resolve_arg lookup op v = .ok r := by
      rw [hres, hmem]
      exact hrole
    have hpp : processPayload [op] lookup [(opname, v)] [] = .ok [(op.name, r)] := by
      simp only [processPayload, hfind, hr2, dictSet]
      rfl
    simp only [SlashCommand_invoke, hpp, fillDefaults, hasKey]
    simp [hname]
  · intro hrole
    have hr2 : resolve_arg lookup op v = .error .notFound := by
      rw [hres, hmem]
      exact hrole
    have hinv : SlashCommand_invoke [op] lookup [(opname, v)] = .error .notFound := by
      simp only [SlashCommand_invoke, processPayload, hfind, hr2]
    refine ⟨hinv, ?_⟩
    rw [hinv]
    rfl

/-- A concrete guild lookup for the witness: member ids are all unknown and
role id 5 resolves to a role entity. -/
def wlookupRoleHit : String → Int → Except PyExc PyValue :=
  fun kind idv =>
    if kind == "role" && idv == 5 then .ok (.entity "role" 5) else .error .notFound

theorem C5_witness_role_fallback :
    SlashCommand_invoke
        [⟨some "target", "No description provided", .mentionable, true, [], .pyNone⟩]
        wlookupRoleHit [("target", .pyInt 5)] =
      .ok [(some "target", .entity "role" 5)] :=
  (C5_mentionable_fallback wlookupRoleHit "target"
      ⟨some "target", "No description provided", .mentionable, true, [], .pyNone⟩
      (.pyInt 5) 5 (.entity "role" 5) rfl rfl rfl rfl).1 rfl

/-- Claim C6: a slash command with a single string option "name" invoked
with the payload pair ("name", "Ada") calls its callback with the keyword
mapping name ↦ "Ada"; invoked with an empty payload it calls it with
name ↦ d where d is the option's declared default (None when unspecified);
and in general every schema option absent from the processed payload is
filled in with its declared default. -/
theorem C6_payload_to_kwargs (d : PyValue)
    (lookup : String → Int → Except PyExc PyValue) :
    SlashCommand_invoke
        [⟨some "name", "No description provided", .string, true, [], .pyNone⟩]
        lookup [("name", .pyStr "Ada")] = .ok [(some "name", .pyStr "Ada")] ∧
    SlashCommand_invoke
        [⟨some "name", "No description provided", .string, false, [], d⟩]
        lookup [] = .ok [(some "name", d)] ∧
    (∀ (opts : List CmdOption) (kw : KWDict) (o : CmdOption),
        (opts.map CmdOption.name).Nodup → o ∈ opts → hasKey kw o.name = false →
        (o.name, o.default) ∈ fillDefaults opts kw) :=
  ⟨rfl, rfl, fun opts kw o hnodup ho hk => fillDefaults_fills opts kw o hnodup ho hk⟩

theorem C6_witness_concrete :
    SlashCommand_invoke
        [⟨some "name", "No description provided", .string, true, [], .pyNone⟩]
        (fun _ _ => .error .notFound) [("name", .pyStr "Ada")] =
      .ok [(some "name", .pyStr "Ada")] ∧
    ((some "name" : Option String), PyValue.pyNone) ∈
      fillDefaults
        [⟨some "name", "No description provided", .string, true, [], .pyNone⟩] [] :=
  ⟨(C6_payload_to_kwargs .pyNone (fun _ _ => .error .notFound)).1,
   (C6_payload_to_kwargs .pyNone (fun _ _ => .error .notFound)).2.2
      [⟨some "name", "No description provided", .string, true, [], .pyNone⟩] []
      ⟨some "name", "No description provided", .string, true, [], .pyNone⟩
      (by simp) (by simp) rfl⟩

/-- Claim C7: when `prepare` succeeds, a cancellation raised by `_invoke`
makes `invoke` return normally with no result (given the after-hooks
themselves succeed), and the after-hook cleanup `call_after_hooks` runs
exactly once whatever `_invoke` does — success, cancellation or any other
fault. -/
theorem C7_cancellation_after_hooks (env : InvokeEnv)
    (hprep : prepare env = .ok ()) :
    (env.invokeResult = .error .cancelledError → env.afterHooks = .ok () →
        invoke env = (.ok (), 1)) ∧
    (invoke env).2 = 1 := by
  constructor
  · intro hc ha
    simp [invoke, hprep, hooked_wrapped_run, ha, hc, wrapCallbackResult,
      PyExc.isAppCommandError]
  · simp only [invoke, hprep]
    cases env.afterHooks <;> simp [hooked_wrapped_run]

theorem C7_witness_cancelled :
    invoke (mkEnvOk (.error .cancelledError)) = (.ok (), 1) ∧
    (invoke (mkEnvOk (.error .cancelledError))).2 = 1 :=
  ⟨(C7_cancellation_after_hooks (mkEnvOk (.error .cancelledError)) rfl).1 rfl rfl,
   (C7_cancellation_after_hooks (mkEnvOk (.error .cancelledError)) rfl).2⟩

/-- Claim C8: calling `command_group` on a group whose `parent_group` is
already set raises the construction-time nesting error before any child is
constructed or appended — for every name and description, even ones that
would themselves fail validation, since the guard precedes construction. -/
theorem C8_nested_group_rejected (g : SubCommandGroupE) (n d : String)
    (h : g.parent_group.isSome = true) :
    command_group g n d = .error (.generic "Subcommands can only be nested once") := by
  unfold command_group
  rw [if_pos h]

theorem C8_witness_two_level :
    command_group
        (.mk "child" "a description" [] (some (.mk "root" "a description" [] none)))
        "X Y" "" =
      .error (.generic "Subcommands can only be nested once") :=
  C8_nested_group_rejected
    (.mk "child" "a description" [] (some (.mk "root" "a description" [] none)))
    "X Y" "" rfl

/-- Claim C9: every successfully constructed context-menu command has the
empty description whatever description keyword was supplied, and its wire
dictionary is exactly name, description "" and type, with type 2 for a user
command and 3 for a message command. -/
theorem C9_context_menu_shape (isCoro : Bool) (fn : String)
    (kn kd : Option String) (pc : Nat) (c : ContextMenuCommandE) :
    (UserCommand_init isCoro fn kn kd pc = .ok c →
        c.description = "" ∧
        c.to_dict = [("name", .str c.name), ("description", .str ""), ("type", .num 2)]) ∧
    (MessageCommand_init isCoro fn kn kd pc = .ok c →
        c.description = "" ∧
        c.to_dict = [("name", .str c.name), ("description", .str ""), ("type", .num 3)]) := by
  constructor
  · intro h
    have hc := ContextMenuCommand_init_ok 2 isCoro fn kn kd pc c h
    subst hc
    exact ⟨rfl, rfl⟩
  · intro h
    have hc := ContextMenuCommand_init_ok 3 isCoro fn kn kd pc c h
    subst hc
    exact ⟨rfl, rfl⟩

theorem C9_witness_user_command :
    (⟨"f", "", 2⟩ : ContextMenuCommandE).description = "" ∧
    (⟨"f", "", 2⟩ : ContextMenuCommandE).to_dict =
      [("name", .str "f"), ("description", .str ""), ("type", .num 2)] :=
  (C9_context_menu_shape true "f" none (some "a supplied description") 2
      ⟨"f", "", 2⟩).1 rfl

/-- Claim C10: two `SlashCommand` instances compare equal exactly when their
names and descriptions agree; the callback, option schema, guild ids,
subcommand flag and checks are ignored, so two commands with identical name
and description but different parameters compare equal. -/
theorem C10_slash_eq_name_description (a b : SlashCommandE) :
    (SlashCommand_eq a b = true ↔ (a.name = b.name ∧ a.description = b.description)) ∧
    (∀ (n d cb1 cb2 : String) (o1 o2 : List CmdOption) (g1 g2 : Option (List Int))
        (s1 s2 : Bool) (c1 c2 : List String),
        SlashCommand_eq ⟨n, d, o1, g1, s1, c1, cb1⟩ ⟨n, d, o2, g2, s2, c2, cb2⟩ = true) := by
  constructor
  · simp [SlashCommand_eq]
  · intro n d cb1 cb2 o1 o2 g1 g2 s1 s2 c1 c2
    simp [SlashCommand_eq]

theorem C10_witness_different_options_equal :
    SlashCommand_eq
        ⟨"greet", "says hi", [], none, false, [], "cb1"⟩
        ⟨"greet", "says hi",
          [⟨some "x", "d", .integer, true, [], .pyNone⟩], some [1], true, ["chk"], "cb2"⟩ = true :=
  (C10_slash_eq_name_description
      ⟨"greet", "says hi", [], none, false, [], "cb1"⟩
      ⟨"greet", "says hi",
        [⟨some "x", "d", .integer, true, [], .pyNone⟩], some [1], true, ["chk"], "cb2"⟩).1.mpr
    ⟨rfl, rfl⟩
